import Mathlib

/-!
Precip Monitor — verification of the weather sync core.

A shallow embedding of the weather client, observation logger and sync loop
of `src/App.jsx` (a single-page precipitation monitoring app).  Numeric
values are modelled as rationals; `Math.round` is floor of `x + 1/2`
(round half toward positive infinity), which is JavaScript's behaviour.
The external weather API is modelled by an explicit HTTP response value,
and the asynchronous sync loop by a pure recursion that also emits a trace
of the network events it performs (fetches and inter-request delays).
-/

namespace PrecipMonitor

/-- JavaScript `Math.round`: floor of `x + 1/2` (half rounds toward `+∞`). -/
def jsRound (q : ℚ) : ℤ := ⌊q + 1/2⌋

/-- Model of `Math.round(x * 10) / 10` — round to 1 decimal place. -/
def round1 (q : ℚ) : ℚ := (jsRound (q * 10) : ℚ) / 10

/-- Model of `Math.round(x * 100) / 100` — round to 2 decimal places. -/
def round2 (q : ℚ) : ℚ := (jsRound (q * 100) : ℚ) / 100

/-- Model of `const MM_TO_INCHES = 0.0393701` (App.jsx line 35). -/
def MM_TO_INCHES : ℚ := 393701 / 10000000

/-- Model of `const FETCH_DELAY = 100` ms between API calls (App.jsx line 37). -/
def FETCH_DELAY : ℕ := 100

/-- Model of `celsiusToFahrenheit(c)`: `c != null ? Math.round((c * 9 / 5 + 32) * 10) / 10 : null`. -/
def celsiusToFahrenheit (c : Option ℚ) : Option ℚ :=
  c.map (fun c => round1 (c * 9 / 5 + 32))

/-- Model of `kphToMph(k)`: `k != null ? Math.round(k * 0.621371 * 10) / 10 : null`. -/
def kphToMph (k : Option ℚ) : Option ℚ :=
  k.map (fun k => round1 (k * (621371 / 1000000)))

/-- Model of `lastVal(arr)`: `arr && arr.length > 0 ? arr[arr.length - 1] : null`.
Hourly series elements may themselves be JSON `null`, so an element is an
`Option ℚ`; an empty (or absent) series and a `null` last element both
yield `null` downstream. -/
def lastVal (arr : List (Option ℚ)) : Option ℚ :=
  match arr.getLast? with
  | some v => v
  | none => none

/-- The `data.hourly` object of the weather API response: parallel arrays,
one per requested parameter, each entry a number or `null`.  An absent
array is modelled as the empty list (the code guards with `|| []` /
`lastVal` of `undefined`, which behave identically to an empty array). -/
structure Hourly where
  precipitation : List (Option ℚ)
  temperature_2m : List (Option ℚ)
  relative_humidity_2m : List (Option ℚ)
  dew_point_2m : List (Option ℚ)
  wind_speed_10m : List (Option ℚ)
  wind_direction_10m : List (Option ℚ)
  deriving DecidableEq

/-- An HTTP response from the weather API: a status code and the parsed
`hourly` payload. -/
structure HttpResponse where
  status : ℕ
  hourly : Hourly
  deriving DecidableEq

/-- Model of `res.ok`: status in the 2xx range 200–299. -/
def resOk (status : ℕ) : Bool := 200 ≤ status && status ≤ 299

/-- The normalized weather record returned by `fetchWeatherData`. -/
structure Weather where
  precip24hr : ℚ
  tempF : Option ℚ
  humidity : Option ℚ
  dewPointF : Option ℚ
  windSpeedMph : Option ℚ
  windDir : Option ℚ
  deriving DecidableEq

/-- Model of `fetchWeatherData(lat, lon)` (App.jsx lines 80–95), with the network
modelled by the response it receives.  On `!res.ok` it throws
`Error('Weather API error: <status>')`, modelled as `Except.error status`;
otherwise it folds the precipitation array with `(sum, v) => sum + (v || 0)`
and takes the last value of each other series. -/
def fetchWeatherData (res : HttpResponse) : Except ℕ Weather :=
  if resOk res.status then
    let h := res.hourly
    let precipMm := h.precipitation.foldl (fun sum v => sum + v.getD 0) 0
    .ok
      { precip24hr := round2 (precipMm * MM_TO_INCHES)
        tempF := celsiusToFahrenheit (lastVal h.temperature_2m)
        humidity := lastVal h.relative_humidity_2m
        dewPointF := celsiusToFahrenheit (lastVal h.dew_point_2m)
        windSpeedMph := kphToMph (lastVal h.wind_speed_10m)
        windDir := lastVal h.wind_direction_10m }
  else
    .error res.status

/-- The spec's formula for the 24-hour precipitation: the sum of the hourly
values (missing/null entries counted as 0), multiplied by 0.0393701 and
rounded to 2 decimal places. -/
def specPrecipInches (vals : List (Option ℚ)) : ℚ :=
  round2 ((vals.map (fun v => v.getD 0)).sum * MM_TO_INCHES)

/-- A monitoring site: Firestore document id plus the user-entered fields. -/
structure Site where
  id : String
  name : String
  state : String
  lat : ℚ
  lon : ℚ
  deriving DecidableEq

/-- An observation document in the `observations` collection: the site id
and every `Weather` field (the server-assigned capture timestamp is
environment-provided and carries no information the claims need). -/
structure Obs where
  siteId : String
  weather : Weather
  deriving DecidableEq

/-- Model of `logObservation(siteId, weather)` (App.jsx lines 98–108): attempts to
append an observation document; a failure of the append is caught and
recorded on the console, and is never re-thrown to the caller.  `appendOk`
is the outcome of the underlying `addDoc` call. -/
def logObservation (appendOk : Bool) (siteId : String) (w : Weather)
    (obs : List Obs) (console : List String) : List Obs × List String :=
  if appendOk then (obs ++ [⟨siteId, w⟩], console)
  else (obs, console ++ ["Failed to log observation for " ++ siteId])

/-- One observable network-level event of a sync cycle: a weather fetch for
a site, an observation-logger invocation for a site, or an inter-request
`delay(ms)`. -/
inductive SyncEvent where
  | fetchSite (siteId : String)
  | logObs (siteId : String)
  | wait (ms : ℕ)
  deriving DecidableEq

/-- The value recorded in the result buffer for one site: the weather
record on success, `null` on failure (`results[site.id] = null`). -/
def outcome (fo : Site → Except ℕ Weather) (site : Site) : Option Weather :=
  match fo site with
  | .ok w => some w
  | .error _ => none

/-- The events one loop iteration performs for one site: a fetch, followed
by a logger invocation when the fetch succeeded. -/
def siteEvents (fo : Site → Except ℕ Weather) (site : Site) : List SyncEvent :=
  match fo site with
  | .ok _ => [.fetchSite site.id, .logObs site.id]
  | .error _ => [.fetchSite site.id]

/-- The observation documents and console messages one loop iteration
produces for one site: on success, whatever `logObservation` appends; on
failure, the `console.error('Failed to fetch weather for …')` message. -/
def siteObsLog (fo : Site → Except ℕ Weather) (lo : String → Bool)
    (site : Site) : List Obs × List String :=
  match fo site with
  | .ok w => logObservation (lo site.id) site.id w [] []
  | .error _ => ([], ["Failed to fetch weather for " ++ site.name])

/-- Everything one pass of the `for` loop inside `fetchAll` produces: the
result buffer (`results`), the ordered trace of network events, and the
observation documents and console messages appended along the way. -/
structure CycleOut where
  results : String → Option (Option Weather)
  trace : List SyncEvent
  obs : List Obs
  console : List String

/-- The `for` loop of `fetchAll` (App.jsx lines 165–176): for each site in
list order, fetch (recording the weather on success and `null` on failure,
later assignments to the same id overwriting earlier ones), invoke the
observation logger on success, and `await delay(FETCH_DELAY)` after every
site except the last (`if (i < sitesToFetch.length - 1)`).  `fo` gives each
fetch's outcome and `lo` each observation append's outcome. -/
def syncLoop (fo : Site → Except ℕ Weather) (lo : String → Bool) :
    List Site → CycleOut
  | [] => ⟨fun _ => none, [], [], []⟩
  | site :: rest =>
    let tail := syncLoop fo lo rest
    let headLog := siteObsLog fo lo site
    { results := fun k =>
        match tail.results k with
        | some v => some v
        | none => if k = site.id then some (outcome fo site) else none
      trace := siteEvents fo site ++
        (if rest.isEmpty then [] else [.wait FETCH_DELAY]) ++ tail.trace
      obs := headLog.1 ++ tail.obs
      console := headLog.2 ++ tail.console }

/-- The state owned by `useWeatherData`: the weather cache (`none` =
absent, `some none` = fetched-and-failed, i.e. JavaScript `null`,
`some (some w)` = fetched weather), the `fetching` flag, and
`lastUpdated`. -/
structure WeatherState where
  weatherData : String → Option (Option Weather)
  fetching : Bool
  lastUpdated : Option ℕ

/-- Model of `setWeatherData(prev => ({ ...prev, ...results }))`: every key present
in the result buffer overwrites the previous cache entry; every other key
keeps its previous value. -/
def mergeCache (prev results : String → Option (Option Weather)) :
    String → Option (Option Weather) :=
  fun k =>
    match results k with
    | some v => some v
    | none => prev k

/-- Model of `fetchAll(sitesToFetch)` (App.jsx lines 161–180): early-return no-op on
an empty list; otherwise run the sequential loop, merge the result buffer
into the cache, set `lastUpdated` to the current time `now`, and reset
`fetching` to `false`.  Returns the new state, the event trace, and the
observation documents appended during the cycle. -/
def fetchAll (fo : Site → Except ℕ Weather) (lo : String → Bool) (now : ℕ)
    (st : WeatherState) (sites : List Site) :
    WeatherState × List SyncEvent × List Obs :=
  if sites.isEmpty then (st, [], [])
  else
    let out := syncLoop fo lo sites
    ({ weatherData := mergeCache st.weatherData out.results
       fetching := false
       lastUpdated := some now }, out.trace, out.obs)

/-- The site ids of the fetch events of a trace, in order. -/
def fetchedIds (tr : List SyncEvent) : List String :=
  tr.filterMap fun e =>
    match e with
    | .fetchSite k => some k
    | _ => none

/-- Whether an event is an inter-request delay. -/
def isWait : SyncEvent → Bool
  | .wait _ => true
  | _ => false

/-- The input state of `SiteForm` (App.jsx lines 250–273): the raw `name`
and `state` text fields and the `parseFloat` results of the latitude and
longitude fields (`none` models `NaN`, i.e. non-numeric input). -/
structure FormState where
  name : String
  state : String
  lat : Option ℚ
  lon : Option ℚ

/-- The object passed to `onSave` when the form submits. -/
structure SubmittedSite where
  name : String
  state : String
  lat : ℚ
  lon : ℚ
  deriving DecidableEq

/-- Model of `validCoords`: both coordinates parsed to numbers (`!isNaN`), latitude
in `[-90, 90]` and longitude in `[-180, 180]`. -/
def validCoords (f : FormState) : Bool :=
  match f.lat, f.lon with
  | some la, some lo =>
    decide (-90 ≤ la) && decide (la ≤ 90) && decide (-180 ≤ lo) && decide (lo ≤ 180)
  | _, _ => false

/-- Model of `canSave`: `name.trim() && state.trim() && validCoords` — a JavaScript
string is truthy exactly when non-empty. -/
def canSave (f : FormState) : Bool :=
  (f.name.trim != "") && (f.state.trim != "") && validCoords f

/-- Model of `handleSubmit`: returns without submitting when `!canSave`; otherwise
submits `{ name: name.trim(), state: state.trim().toUpperCase(),
lat: parsedLat, lon: parsedLon }`. -/
def handleSubmit (f : FormState) : Option SubmittedSite :=
  if canSave f then
    match f.lat, f.lon with
    | some la, some lo => some ⟨f.name.trim, f.state.trim.toUpper, la, lo⟩
    | _, _ => none
  else none

/-- The two Firestore collections the app touches: `sites` and
`observations`. -/
structure Firestore where
  sitesCol : List Site
  observationsCol : List Obs
  deriving DecidableEq

/-- Model of `deleteSiteDoc(id)` (App.jsx lines 69–71): `deleteDoc(doc(db, 'sites',
id))` — removes the document with that id from the `sites` collection and
touches nothing else. -/
def deleteSiteDoc (fs : Firestore) (id : String) : Firestore :=
  { fs with sitesCol := fs.sitesCol.filter (fun s => s.id != id) }

/-- The state of the `useSites` hook together with the backing store: the
live `sites` list held in React state, and the Firestore collections. -/
structure SitesState where
  fs : Firestore
  sites : List Site
  deriving DecidableEq

/-- Model of `remove(id)` (App.jsx lines 147–150): `await deleteSiteDoc(id)` then
`setSites(prev => prev.filter(s => s.id !== id))`. -/
def removeSite (st : SitesState) (id : String) : SitesState :=
  { fs := deleteSiteDoc st.fs id
    sites := st.sites.filter (fun s => s.id != id) }

/-- The 16-element compass rose used by `windDirLabel`. -/
def compassDirs : List String :=
  ["N", "NNE", "NE", "ENE", "E", "ESE", "SE", "SSE",
   "S", "SSW", "SW", "WSW", "W", "WNW", "NW", "NNW"]

/-- JavaScript array subscripting with a (possibly negative) integer
index: the element when the index is in bounds, `undefined` (`none`)
otherwise. -/
def jsIndex (l : List String) (i : ℤ) : Option String :=
  if h : 0 ≤ i ∧ i.toNat < l.length then some (l.get ⟨i.toNat, h.2⟩)
  else none

/-- Model of `windDirLabel(deg)` (App.jsx lines 345–349): `'---'` for `null`, else
`dirs[Math.round(deg / 22.5) % 16]`.  JavaScript `%` is the truncated
remainder, `Int.tmod`. -/
def windDirLabel (deg : Option ℚ) : Option String :=
  match deg with
  | none => some "---"
  | some d => jsIndex compassDirs ((jsRound (d / (45/2))).tmod 16)

/-! ## Unfolding lemmas for the sync loop -/

theorem syncLoop_nil (fo : Site → Except ℕ Weather) (lo : String → Bool) :
    syncLoop fo lo [] = ⟨fun _ => none, [], [], []⟩ := rfl

theorem syncLoop_cons_results (fo : Site → Except ℕ Weather) (lo : String → Bool)
    (site : Site) (rest : List Site) (k : String) :
    (syncLoop fo lo (site :: rest)).results k =
      match (syncLoop fo lo rest).results k with
      | some v => some v
      | none => if k = site.id then some (outcome fo site) else none := rfl

theorem syncLoop_cons_trace (fo : Site → Except ℕ Weather) (lo : String → Bool)
    (site : Site) (rest : List Site) :
    (syncLoop fo lo (site :: rest)).trace =
      siteEvents fo site ++
        (if rest.isEmpty then [] else [.wait FETCH_DELAY]) ++
        (syncLoop fo lo rest).trace := rfl

/-! ## The result buffer -/

theorem syncLoop_results_not_mem (fo : Site → Except ℕ Weather) (lo : String → Bool)
    (sites : List Site) (k : String) (hk : k ∉ sites.map Site.id) :
    (syncLoop fo lo sites).results k = none := by
  induction sites with
  | nil => rfl
  | cons site rest ih =>
    simp only [List.map_cons, List.mem_cons, not_or] at hk
    rw [syncLoop_cons_results, ih hk.2]
    simp [hk.1]

theorem syncLoop_results_of_mem (fo : Site → Except ℕ Weather) (lo : String → Bool)
    {sites : List Site} {site : Site}
    (hnd : (sites.map Site.id).Nodup) (hmem : site ∈ sites) :
    (syncLoop fo lo sites).results site.id = some (outcome fo site) := by
  induction sites with
  | nil => cases hmem
  | cons s rest ih =>
    simp only [List.map_cons, List.nodup_cons] at hnd
    rw [syncLoop_cons_results]
    rcases List.mem_cons.mp hmem with h | h
    · subst h
      rw [syncLoop_results_not_mem fo lo rest site.id hnd.1]
      simp
    · rw [ih hnd.2 h]

theorem syncLoop_results_isSome_of_mem (fo : Site → Except ℕ Weather) (lo : String → Bool)
    {sites : List Site} {k : String} (hk : k ∈ sites.map Site.id) :
    ((syncLoop fo lo sites).results k).isSome := by
  induction sites with
  | nil => cases hk
  | cons site rest ih =>
    rw [syncLoop_cons_results]
    rcases List.mem_cons.mp hk with h | h
    · cases hrest : (syncLoop fo lo rest).results k with
      | some v => simp
      | none => simp [h]
    · cases hrest : (syncLoop fo lo rest).results k with
      | some v => simp
      | none => have := ih h; rw [hrest] at this; cases this

/-! ## The event trace -/

theorem fetchedIds_append (tr tr' : List SyncEvent) :
    fetchedIds (tr ++ tr') = fetchedIds tr ++ fetchedIds tr' := by
  simp [fetchedIds]

theorem fetchedIds_siteEvents (fo : Site → Except ℕ Weather) (site : Site) :
    fetchedIds (siteEvents fo site) = [site.id] := by
  cases h : fo site <;> simp [siteEvents, h, fetchedIds]

theorem filter_isWait_siteEvents (fo : Site → Except ℕ Weather) (site : Site) :
    (siteEvents fo site).filter isWait = [] := by
  cases h : fo site <;> simp [siteEvents, h, isWait]

theorem fetchedIds_syncLoop (fo : Site → Except ℕ Weather) (lo : String → Bool)
    (sites : List Site) :
    fetchedIds (syncLoop fo lo sites).trace = sites.map Site.id := by
  induction sites with
  | nil => rfl
  | cons site rest ih =>
    rw [syncLoop_cons_trace, fetchedIds_append, fetchedIds_append,
      fetchedIds_siteEvents, ih]
    cases rest <;> simp [fetchedIds]

theorem waitCount_syncLoop (fo : Site → Except ℕ Weather) (lo : String → Bool)
    (sites : List Site) :
    ((syncLoop fo lo sites).trace.filter isWait).length = sites.length - 1 := by
  induction sites with
  | nil => rfl
  | cons site rest ih =>
    rw [syncLoop_cons_trace, List.filter_append, List.filter_append,
      filter_isWait_siteEvents]
    cases rest with
    | nil => simp [syncLoop_nil]
    | cons r rs =>
      simp only [List.isEmpty_cons, if_false] at *
      simp only [List.nil_append, List.length_append, ih]
      simp [isWait]
      omega

theorem syncLoop_trace_shape (fo : Site → Except ℕ Weather) (lo : String → Bool)
    (sites : List Site) :
    (syncLoop fo lo sites).trace =
      (List.intersperse [SyncEvent.wait FETCH_DELAY]
        (sites.map (siteEvents fo))).flatten := by
  induction sites with
  | nil => rfl
  | cons site rest ih =>
    cases rest with
    | nil => simp [syncLoop_cons_trace, syncLoop_nil]
    | cons r rs =>
      rw [syncLoop_cons_trace, ih]
      simp [List.intersperse_cons_cons]

/-! ## Independence from the logger outcomes -/

theorem syncLoop_indep_log (fo : Site → Except ℕ Weather) (lo lo' : String → Bool)
    (sites : List Site) :
    (syncLoop fo lo sites).results = (syncLoop fo lo' sites).results ∧
    (syncLoop fo lo sites).trace = (syncLoop fo lo' sites).trace := by
  induction sites with
  | nil => exact ⟨rfl, rfl⟩
  | cons site rest ih =>
    refine ⟨funext fun k => ?_, ?_⟩
    · rw [syncLoop_cons_results, syncLoop_cons_results, ih.1]
    · rw [syncLoop_cons_trace, syncLoop_cons_trace, ih.2]

/-! ## `fetchAll` unfolding -/

theorem fetchAll_nil (fo : Site → Except ℕ Weather) (lo : String → Bool)
    (now : ℕ) (st : WeatherState) : fetchAll fo lo now st [] = (st, [], []) := rfl

theorem fetchAll_of_ne_nil (fo : Site → Except ℕ Weather) (lo : String → Bool)
    (now : ℕ) (st : WeatherState) {sites : List Site} (h : sites ≠ []) :
    fetchAll fo lo now st sites =
      ({ weatherData := mergeCache st.weatherData (syncLoop fo lo sites).results
         fetching := false
         lastUpdated := some now },
       (syncLoop fo lo sites).trace, (syncLoop fo lo sites).obs) := by
  cases sites with
  | nil => cases h rfl
  | cons s rest => rfl

/-! ## Concrete fixtures used by the witnesses -/

/-- A sample weather record. -/
def wA : Weather := ⟨6/100, some 68, some 55, some 50, some (31/5), some 100⟩

/-- A sample site with id `"a"`. -/
def siteA : Site := ⟨"a", "Fargo West", "ND", 46877/1000, -96789/1000⟩

/-- A sample site with id `"b"`. -/
def siteB : Site := ⟨"b", "Mankato", "MN", 44, -93⟩

/-- A fetch oracle that fails with HTTP 500 for site `"b"` and succeeds
with `wA` for every other site. -/
def testOracle : Site → Except ℕ Weather :=
  fun s => if s.id = "b" then .error 500 else .ok wA

/-- The initial `useWeatherData` state: empty cache, not fetching, never
updated. -/
def st0 : WeatherState := ⟨fun _ => none, false, none⟩

/-! ## Claims -/

/-- C1: for every non-empty site list of length N, one run of Sync
(`fetchAll`) issues exactly N weather fetches, one per site in list order
(the fetch events of the trace are exactly `sites.map Site.id`, in order),
strictly sequentially — the trace is one linear sequence of events, never
parallel — with exactly N−1 inter-request delays of `FETCH_DELAY` ms, each
placed between the event blocks of consecutive sites and none after the
last (the trace is the per-site blocks interspersed with single delays),
regardless of which individual fetches succeed or fail (the statement
holds for every fetch oracle `fo`). -/
theorem fetchAll_sequential_trace (fo : Site → Except ℕ Weather)
    (lo : String → Bool) (now : ℕ) (st : WeatherState)
    (sites : List Site) (h : sites ≠ []) :
    fetchedIds (fetchAll fo lo now st sites).2.1 = sites.map Site.id ∧
    ((fetchAll fo lo now st sites).2.1.filter isWait).length = sites.length - 1 ∧
    (fetchAll fo lo now st sites).2.1 =
      (List.intersperse [SyncEvent.wait FETCH_DELAY]
        (sites.map (siteEvents fo))).flatten := by
  rw [fetchAll_of_ne_nil fo lo now st h]
  exact ⟨fetchedIds_syncLoop fo lo sites, waitCount_syncLoop fo lo sites,
    syncLoop_trace_shape fo lo sites⟩

theorem fetchAll_sequential_trace_witness :
    fetchedIds (fetchAll testOracle (fun _ => true) 0 st0 [siteA, siteB]).2.1 =
      [siteA, siteB].map Site.id ∧
    ((fetchAll testOracle (fun _ => true) 0 st0 [siteA, siteB]).2.1.filter
      isWait).length = [siteA, siteB].length - 1 ∧
    (fetchAll testOracle (fun _ => true) 0 st0 [siteA, siteB]).2.1 =
      (List.intersperse [SyncEvent.wait FETCH_DELAY]
        ([siteA, siteB].map (siteEvents testOracle))).flatten :=
  fetchAll_sequential_trace testOracle (fun _ => true) 0 st0 [siteA, siteB]
    (by simp)

/-- C2: for every site whose weather fetch fails during a sync cycle, the
cache entry for that site's id is set to explicitly null (`some none`:
present and null, not absent and not a kept stale value — whatever
`st.weatherData` held before), the remaining sites in the list are still
fetched (the trace's fetch events still cover every site in order), and
the cycle still completes: `lastUpdated` is set to the current time and
`fetching` is reset to `false`. -/
theorem fetchAll_failure_sets_null (fo : Site → Except ℕ Weather)
    (lo : String → Bool) (now : ℕ) (st : WeatherState)
    {sites : List Site} {b : Site} {e : ℕ}
    (hnd : (sites.map Site.id).Nodup) (hb : b ∈ sites)
    (hfail : fo b = .error e) :
    (fetchAll fo lo now st sites).1.weatherData b.id = some none ∧
    fetchedIds (fetchAll fo lo now st sites).2.1 = sites.map Site.id ∧
    (fetchAll fo lo now st sites).1.lastUpdated = some now ∧
    (fetchAll fo lo now st sites).1.fetching = false := by
  have hne : sites ≠ [] := by rintro rfl; cases hb
  rw [fetchAll_of_ne_nil fo lo now st hne]
  refine ⟨?_, fetchedIds_syncLoop fo lo sites, rfl, rfl⟩
  have hres := syncLoop_results_of_mem fo lo hnd hb
  simp [mergeCache, hres, outcome, hfail]

theorem fetchAll_failure_sets_null_witness :
    (fetchAll testOracle (fun _ => true) 7 st0 [siteA, siteB]).1.weatherData
      siteB.id = some none ∧
    fetchedIds (fetchAll testOracle (fun _ => true) 7 st0 [siteA, siteB]).2.1 =
      [siteA, siteB].map Site.id ∧
    (fetchAll testOracle (fun _ => true) 7 st0 [siteA, siteB]).1.lastUpdated =
      some 7 ∧
    (fetchAll testOracle (fun _ => true) 7 st0 [siteA, siteB]).1.fetching =
      false :=
  fetchAll_failure_sets_null testOracle (fun _ => true) 7 st0
    (by simp [siteA, siteB]) (by simp) rfl

/-- Folding `(sum, v) => sum + (v || 0)` over a list equals the sum of the
null-defaulted values. -/
theorem foldl_getD_eq_sum (l : List (Option ℚ)) (init : ℚ) :
    l.foldl (fun sum v => sum + v.getD 0) init =
      init + (l.map (fun v => v.getD 0)).sum := by
  induction l generalizing init with
  | nil => simp
  | cons x xs ih => simp [ih, add_assoc]

/-- A weather API response with 2xx status: hourly precipitation
`[0, 0.5, 1.0]` mm and one entry in each other series. -/
def okResponse : HttpResponse :=
  ⟨200, ⟨[some 0, some (1/2), some 1], [some 20], [some 55], [some 10],
    [some 10], [some 100]⟩⟩

/-- The weather record `fetchWeatherData` computes from `okResponse`
(spelled with the same subterms, so the equation holds by `rfl`). -/
def wOk : Weather :=
  { precip24hr := round2
      ((okResponse.hourly.precipitation.foldl (fun sum v => sum + v.getD 0) 0) *
        MM_TO_INCHES)
    tempF := celsiusToFahrenheit (lastVal okResponse.hourly.temperature_2m)
    humidity := lastVal okResponse.hourly.relative_humidity_2m
    dewPointF := celsiusToFahrenheit (lastVal okResponse.hourly.dew_point_2m)
    windSpeedMph := kphToMph (lastVal okResponse.hourly.wind_speed_10m)
    windDir := lastVal okResponse.hourly.wind_direction_10m }

/-- A weather API response with HTTP status 500. -/
def badResponse : HttpResponse := ⟨500, ⟨[], [], [], [], [], []⟩⟩

/-- C3: for every successful weather fetch, the reported 24-hour
precipitation equals the sum of all returned hourly precipitation values
with missing/null entries counted as 0, multiplied by 0.0393701, rounded
to 2 decimal places (`specPrecipInches`, written from the spec's words);
and hourly values `[0, 0.5, 1.0]` mm yield `0.06` inches. -/
theorem fetchWeatherData_precip_spec (res : HttpResponse) (w : Weather)
    (h : fetchWeatherData res = .ok w) :
    w.precip24hr = specPrecipInches res.hourly.precipitation ∧
    specPrecipInches [some 0, some (1/2), some 1] = 6/100 := by
  constructor
  · simp only [fetchWeatherData] at h
    split at h
    · injection h with h'
      subst h'
      simp [specPrecipInches, foldl_getD_eq_sum]
    · cases h
  · norm_num [specPrecipInches, round2, jsRound, MM_TO_INCHES]

theorem fetchWeatherData_precip_spec_witness :
    wOk.precip24hr = specPrecipInches okResponse.hourly.precipitation ∧
    specPrecipInches [some 0, some (1/2), some 1] = 6/100 :=
  fetchWeatherData_precip_spec okResponse wOk rfl

/-- C5: for every successful weather fetch, each instantaneous field
equals the last value of its hourly series (`none` when that series is
empty), with temperature and dew point converted by
`round((c·9/5+32), 1 decimal)` and wind speed by
`round(k·0.621371, 1 decimal)`; a last temperature of 20 °C yields 68.0
and a last wind speed of 10 km/h yields 6.2. -/
theorem fetchWeatherData_instantaneous_spec (res : HttpResponse) (w : Weather)
    (h : fetchWeatherData res = .ok w) :
    (w.tempF = (lastVal res.hourly.temperature_2m).map
        (fun c => round1 (c * 9 / 5 + 32)) ∧
      w.humidity = lastVal res.hourly.relative_humidity_2m ∧
      w.dewPointF = (lastVal res.hourly.dew_point_2m).map
        (fun c => round1 (c * 9 / 5 + 32)) ∧
      w.windSpeedMph = (lastVal res.hourly.wind_speed_10m).map
        (fun k => round1 (k * (621371 / 1000000))) ∧
      w.windDir = lastVal res.hourly.wind_direction_10m) ∧
    (res.hourly.temperature_2m = [] → w.tempF = none) ∧
    celsiusToFahrenheit (some 20) = some 68 ∧
    kphToMph (some 10) = some (31/5) := by
  have hw : w.tempF = (lastVal res.hourly.temperature_2m).map
        (fun c => round1 (c * 9 / 5 + 32)) ∧
      w.humidity = lastVal res.hourly.relative_humidity_2m ∧
      w.dewPointF = (lastVal res.hourly.dew_point_2m).map
        (fun c => round1 (c * 9 / 5 + 32)) ∧
      w.windSpeedMph = (lastVal res.hourly.wind_speed_10m).map
        (fun k => round1 (k * (621371 / 1000000))) ∧
      w.windDir = lastVal res.hourly.wind_direction_10m := by
    simp only [fetchWeatherData] at h
    split at h
    · injection h with h'
      subst h'
      exact ⟨rfl, rfl, rfl, rfl, rfl⟩
    · cases h
  refine ⟨hw, fun hemp => ?_, ?_, ?_⟩
  · rw [hw.1, hemp]
    rfl
  · norm_num [celsiusToFahrenheit, round1, jsRound]
  · norm_num [kphToMph, round1, jsRound]

theorem fetchWeatherData_instantaneous_spec_witness :
    (wOk.tempF = (lastVal okResponse.hourly.temperature_2m).map
        (fun c => round1 (c * 9 / 5 + 32)) ∧
      wOk.humidity = lastVal okResponse.hourly.relative_humidity_2m ∧
      wOk.dewPointF = (lastVal okResponse.hourly.dew_point_2m).map
        (fun c => round1 (c * 9 / 5 + 32)) ∧
      wOk.windSpeedMph = (lastVal okResponse.hourly.wind_speed_10m).map
        (fun k => round1 (k * (621371 / 1000000))) ∧
      wOk.windDir = lastVal okResponse.hourly.wind_direction_10m) ∧
    celsiusToFahrenheit (some 20) = some 68 ∧
    kphToMph (some 10) = some (31/5) :=
  ⟨(fetchWeatherData_instantaneous_spec okResponse wOk rfl).1,
    (fetchWeatherData_instantaneous_spec okResponse wOk rfl).2.2⟩

/-- C6: for every weather request that receives a non-2xx HTTP status,
`fetchWeatherData` fails with the error carrying that status code, and
produces no weather record. -/
theorem fetchWeatherData_error_status (res : HttpResponse)
    (h : ¬(200 ≤ res.status ∧ res.status ≤ 299)) :
    fetchWeatherData res = .error res.status ∧
    ∀ w : Weather, fetchWeatherData res ≠ .ok w := by
  have hok : resOk res.status = false := by
    simp only [resOk, Bool.and_eq_false_iff, decide_eq_false_iff_not]
    omega
  have herr : fetchWeatherData res = .error res.status := by
    simp [fetchWeatherData, hok]
  exact ⟨herr, fun w hw => by rw [herr] at hw; cases hw⟩

theorem fetchWeatherData_error_status_witness :
    fetchWeatherData badResponse = .error 500 :=
  (fetchWeatherData_error_status badResponse (by decide)).1

/-- C4: merging a sync cycle's results into the cache overwrites exactly
the keys fetched in that cycle — a key in the cycle's site list gets the
cycle's buffered value (which is always present), and every key not in the
cycle's site list keeps its value from prior cycles — and calling
`fetchAll` with an empty site list is a no-op: cache, `fetching` flag and
`lastUpdated` are all returned unchanged. -/
theorem fetchAll_merge_frame (fo : Site → Except ℕ Weather) (lo : String → Bool)
    (now : ℕ) (st : WeatherState) (sites : List Site) (k : String) :
    fetchAll fo lo now st [] = (st, [], []) ∧
    (k ∉ sites.map Site.id →
      (fetchAll fo lo now st sites).1.weatherData k = st.weatherData k) ∧
    (k ∈ sites.map Site.id →
      (fetchAll fo lo now st sites).1.weatherData k =
        (syncLoop fo lo sites).results k ∧
      ((syncLoop fo lo sites).results k).isSome) := by
  refine ⟨rfl, fun hk => ?_, fun hk => ?_⟩
  · cases sites with
    | nil => rfl
    | cons s rest =>
      rw [fetchAll_of_ne_nil fo lo now st (by simp)]
      simp [mergeCache, syncLoop_results_not_mem fo lo _ k hk]
  · have hne : sites ≠ [] := by rintro rfl; cases hk
    rw [fetchAll_of_ne_nil fo lo now st hne]
    have hsome := syncLoop_results_isSome_of_mem fo lo hk
    obtain ⟨v, hv⟩ := Option.isSome_iff_exists.mp hsome
    exact ⟨by simp [mergeCache, hv], hsome⟩

theorem fetchAll_merge_frame_witness :
    (fetchAll testOracle (fun _ => true) 0 st0 [siteA, siteB]).1.weatherData
      "z" = st0.weatherData "z" ∧
    (fetchAll testOracle (fun _ => true) 0 st0 [siteA, siteB]).1.weatherData
        "a" = (syncLoop testOracle (fun _ => true) [siteA, siteB]).results "a" ∧
      ((syncLoop testOracle (fun _ => true) [siteA, siteB]).results "a").isSome :=
  ⟨(fetchAll_merge_frame testOracle (fun _ => true) 0 st0 [siteA, siteB]
      "z").2.1 (by decide),
    (fetchAll_merge_frame testOracle (fun _ => true) 0 st0 [siteA, siteB]
      "a").2.2 (by decide)⟩

/-- C7: for every invocation of the observation logger, a failure of the
append is caught and recorded locally (the call returns normally either
appending the document or adding a console message) and never propagates
to the sync loop: the cycle's cache, flags, timestamp and event trace are
identical for any two append-outcome oracles — so logging can never cause
a site's cache entry to become null or the cycle to abort, and the loop's
progression through the remaining sites does not depend on the logger —
and a site successfully fetched gets its weather cached no matter how the
logging went. -/
theorem logObservation_best_effort :
    (∀ (ok : Bool) (siteId : String) (w : Weather) (obs : List Obs)
        (con : List String),
      logObservation ok siteId w obs con = (obs ++ [⟨siteId, w⟩], con) ∨
      logObservation ok siteId w obs con =
        (obs, con ++ ["Failed to log observation for " ++ siteId])) ∧
    (∀ (fo : Site → Except ℕ Weather) (lo lo' : String → Bool) (now : ℕ)
        (st : WeatherState) (sites : List Site),
      (fetchAll fo lo now st sites).1 = (fetchAll fo lo' now st sites).1 ∧
      (fetchAll fo lo now st sites).2.1 = (fetchAll fo lo' now st sites).2.1) ∧
    (∀ (fo : Site → Except ℕ Weather) (lo : String → Bool) (now : ℕ)
        (st : WeatherState) (sites : List Site) (site : Site) (w : Weather),
      (sites.map Site.id).Nodup → site ∈ sites → fo site = .ok w →
      (fetchAll fo lo now st sites).1.weatherData site.id = some (some w)) := by
  refine ⟨fun ok siteId w obs con => ?_, fun fo lo lo' now st sites => ?_,
    fun fo lo now st sites site w hnd hmem hok => ?_⟩
  · cases ok
    · right; rfl
    · left; rfl
  · cases sites with
    | nil => exact ⟨rfl, rfl⟩
    | cons s rest =>
      rw [fetchAll_of_ne_nil fo lo now st (by simp),
        fetchAll_of_ne_nil fo lo' now st (by simp)]
      have h := syncLoop_indep_log fo lo lo' (s :: rest)
      rw [h.1, h.2]
      exact ⟨rfl, rfl⟩
  · have hne : sites ≠ [] := by rintro rfl; cases hmem
    rw [fetchAll_of_ne_nil fo lo now st hne]
    have hres := syncLoop_results_of_mem fo lo hnd hmem
    simp [mergeCache, hres, outcome, hok]

theorem logObservation_best_effort_witness :
    (fetchAll testOracle (fun _ => false) 0 st0 [siteA, siteB]).1.weatherData
      siteA.id = some (some wA) :=
  logObservation_best_effort.2.2 testOracle (fun _ => false) 0 st0
    [siteA, siteB] siteA wA (by decide) (List.mem_cons_self siteA [siteB]) rfl

/-- C8: the site form submits exactly when the name and state are
non-empty after trimming and the coordinates are numeric and in range
(`canSave`); every site it submits has the trimmed name, the trimmed
uppercased state, and numeric coordinates with latitude in `[-90, 90]` and
longitude in `[-180, 180]` — out-of-range or non-numeric input is rejected
before submission. -/
theorem siteForm_validates (f : FormState) :
    Option.elim (handleSubmit f)
      (canSave f = false)
      (fun s =>
        canSave f = true ∧
        s.name = f.name.trim ∧ f.name.trim ≠ "" ∧
        s.state = f.state.trim.toUpper ∧ f.state.trim ≠ "" ∧
        -90 ≤ s.lat ∧ s.lat ≤ 90 ∧ -180 ≤ s.lon ∧ s.lon ≤ 180) := by
  cases hc : canSave f with
  | false =>
    have hnone : handleSubmit f = none := by simp [handleSubmit, hc]
    rw [hnone]
    rfl
  | true =>
    have hcs := hc
    simp only [canSave, Bool.and_eq_true, bne_iff_ne, ne_eq] at hcs
    obtain ⟨⟨hname, hstate⟩, hvc⟩ := hcs
    cases hlat : f.lat with
    | none => simp [validCoords, hlat] at hvc
    | some la =>
      cases hlon : f.lon with
      | none => simp [validCoords, hlat, hlon] at hvc
      | some lo =>
        simp only [validCoords, hlat, hlon, Bool.and_eq_true,
          decide_eq_true_eq] at hvc
        have hsub : handleSubmit f =
            some ⟨f.name.trim, f.state.trim.toUpper, la, lo⟩ := by
          simp [handleSubmit, hc, hlat, hlon]
        rw [hsub]
        exact ⟨rfl, rfl, hname, rfl, hstate, hvc.1.1.1, hvc.1.1.2, hvc.1.2,
          hvc.2⟩

/-- The Firestore contents backing the fixture `sitesState1`. -/
def fs1 : Firestore := ⟨[siteA, siteB], [⟨"b", wA⟩]⟩

/-- A `useSites` state holding two live sites and one logged
observation. -/
def sitesState1 : SitesState := ⟨fs1, [siteA, siteB]⟩

/-- C9: deleting a site removes that site's entry from the live site list
— after `remove(id)` no site with that id remains — and never deletes any
document from the observations history collection. -/
theorem removeSite_frame (st : SitesState) (id : String) :
    (∀ s ∈ (removeSite st id).sites, s.id ≠ id) ∧
    (removeSite st id).fs.observationsCol = st.fs.observationsCol := by
  refine ⟨fun s hs => ?_, rfl⟩
  have hs' : s ∈ st.sites.filter (fun s => s.id != id) := hs
  have hp := List.of_mem_filter hs'
  simpa [bne_iff_ne] using hp

theorem removeSite_frame_witness :
    siteA.id ≠ "b" ∧
    (removeSite sitesState1 "b").fs.observationsCol =
      sitesState1.fs.observationsCol :=
  ⟨(removeSite_frame sitesState1 "b").1 siteA
      (show siteA ∈ [siteA] from List.mem_cons_self siteA []),
    (removeSite_frame sitesState1 "b").2⟩

/-- C10: for every wind-direction degree value in `[0, 360]`, the index
`Math.round(deg / 22.5) % 16` lies within the 16-element compass array, so
`windDirLabel` returns one of the 16 compass labels and never an
out-of-bounds (`undefined`) access; both 0° and 360° map to `"N"`, and a
null degree gives `"---"`. -/
theorem windDirLabel_total (d : ℚ) (h0 : 0 ≤ d) (h1 : d ≤ 360) :
    (∃ s ∈ compassDirs, windDirLabel (some d) = some s) ∧
    windDirLabel (some 0) = some "N" ∧
    windDirLabel (some 360) = some "N" ∧
    windDirLabel none = some "---" := by
  refine ⟨?_, ?_, ?_, rfl⟩
  · have hq0 : (0 : ℚ) ≤ d / (45/2) := by positivity
    have hi0 : 0 ≤ jsRound (d / (45/2)) := by
      rw [jsRound]
      exact Int.floor_nonneg.mpr (by linarith)
    have hi16 : jsRound (d / (45/2)) ≤ 16 := by
      rw [jsRound]
      have hds : d / (45/2) ≤ 16 := by
        rw [div_le_iff₀ (by norm_num)]
        linarith
      have h17 : d / (45/2) + 1/2 < (17 : ℤ) := by push_cast; linarith
      have := Int.floor_lt.mpr h17
      omega
    set i := jsRound (d / (45/2)) with hidef
    have htm : i.tmod 16 = i % 16 := Int.tmod_eq_emod hi0 (by norm_num)
    have hm0 : 0 ≤ i % 16 := Int.emod_nonneg i (by norm_num)
    have hm16 : i % 16 < 16 := Int.emod_lt_of_pos i (by norm_num)
    have hlen : compassDirs.length = 16 := rfl
    have hcond : 0 ≤ i.tmod 16 ∧ (i.tmod 16).toNat < compassDirs.length := by
      rw [htm, hlen]
      exact ⟨hm0, by omega⟩
    refine ⟨compassDirs.get ⟨(i.tmod 16).toNat, hcond.2⟩,
      List.get_mem compassDirs _ _, ?_⟩
    show jsIndex compassDirs (i.tmod 16) = _
    rw [jsIndex, dif_pos hcond]
  · norm_num [windDirLabel, jsIndex, jsRound, compassDirs]
  · norm_num [windDirLabel, jsIndex, jsRound, compassDirs]

theorem windDirLabel_total_witness :
    (∃ s ∈ compassDirs, windDirLabel (some 45) = some s) ∧
    windDirLabel (some 0) = some "N" ∧
    windDirLabel (some 360) = some "N" ∧
    windDirLabel none = some "---" :=
  windDirLabel_total 45 (by decide) (by decide)

end PrecipMonitor
